import Mathlib

/-!
Verification of the athlete CRUD resource handler
(`workout_api/atleta/controller.py`).

The controller is embedded shallowly: the backing relational store is a
record of lists, a request-scoped session is the committed store plus the
list of rows added but not yet committed, and each HTTP handler becomes a
pure Lean function from the store (plus the request data and the values
the environment supplies, such as the fresh uuid, the current timestamp
and an injected persistence fault) to an `Except` result together with the
session left behind by the handler.  HTTP errors are status/detail pairs;
the status codes of the successful responses are the constants declared on
the routes.
-/

namespace WorkoutApi

/-- Modelled from the spec (the ORM model file `atleta/models.py` is not
part of the shown sources): one stored athlete row.  The controller reads
and writes the columns `id`, `created_at`, `nome`, `cpf`, the scalar
attributes, and the two foreign keys `categoria_id` and
`centro_treinamento_id`.  Weight and height carry no arithmetic in the
controller, so they are embedded as integers. -/
structure AtletaModel where
  id : String
  created_at : Nat
  nome : String
  cpf : String
  sexo : String
  peso : Int
  altura : Int
  idade : Nat
  categoria_id : Nat
  centro_treinamento_id : Nat
deriving Repr, DecidableEq

/-- Modelled from the spec (`categorias/models.py` is not shown): a
category reference row, identified by `pk_id` and looked up by `nome`. -/
structure CategoriaModel where
  pk_id : Nat
  nome : String
deriving Repr, DecidableEq

/-- Modelled from the spec (`centro_treinamento/models.py` is not shown):
a training-center reference row. -/
structure CentroTreinamentoModel where
  pk_id : Nat
  nome : String
deriving Repr, DecidableEq

/-- Modelled from the spec (`atleta/schemas.py` is not shown): the create
payload.  `categoria` and `centro_treinamento` carry the human-readable
names used for the reference lookups. -/
structure AtletaIn where
  nome : String
  cpf : String
  sexo : String
  peso : Int
  altura : Int
  idade : Nat
  categoria : String
  centro_treinamento : String
deriving Repr, DecidableEq

/-- Modelled from the spec (`atleta/schemas.py` is not shown): the full
athlete projection returned by the handlers, the create payload enriched
with the server-assigned id and creation timestamp. -/
structure AtletaOut where
  id : String
  created_at : Nat
  nome : String
  cpf : String
  sexo : String
  peso : Int
  altura : Int
  idade : Nat
  categoria : String
  centro_treinamento : String
deriving Repr, DecidableEq

/-- Modelled from the spec (`atleta/schemas.py` is not shown): the sparse
partial-update payload; a field is applied exactly when it is present
(`some`), mirroring `model_dump(exclude_unset=True)`. -/
structure AtletaUpdate where
  nome : Option String := none
  cpf : Option String := none
  sexo : Option String := none
  peso : Option Int := none
  altura : Option Int := none
  idade : Option Nat := none
deriving Repr, DecidableEq

/-- The partial-update payload with no field set. -/
def AtletaUpdate.empty : AtletaUpdate := {}

/-- The backing relational store: the athlete table and the two reference
tables. -/
structure Store where
  categorias : List CategoriaModel
  centros : List CentroTreinamentoModel
  atletas : List AtletaModel
deriving Repr, DecidableEq

/-- A request-scoped session: the committed store plus the rows added via
`db_session.add` that have not been committed (a nonempty `pending` after
a handler returns means the open transaction was not rolled back). -/
structure Session where
  store : Store
  pending : List AtletaModel
deriving Repr, DecidableEq

/-- A translated HTTP error: `raise HTTPException(status_code, detail)`. -/
structure HTTPError where
  statusCode : Nat
  detail : String
deriving Repr, DecidableEq

/-- Success status declared on the create route: `HTTP_201_CREATED`. -/
def post_status_code : Nat := 201

/-- Success status declared on the list routes: `HTTP_200_OK`. -/
def query_status_code : Nat := 200

/-- Success status declared on the get-by-id route: `HTTP_200_OK`. -/
def get_status_code : Nat := 200

/-- Success status declared on the partial-update route: `HTTP_200_OK`. -/
def patch_status_code : Nat := 200

/-- Success status declared on the delete route: `HTTP_204_NO_CONTENT`. -/
def delete_status_code : Nat := 204

/-- `select(CategoriaModel).filter_by(nome=...)....first()`. -/
def findCategoria (store : Store) (nome : String) : Option CategoriaModel :=
  store.categorias.find? (fun c => c.nome == nome)

/-- `select(CentroTreinamentoModel).filter_by(nome=...)....first()`. -/
def findCentro (store : Store) (nome : String) : Option CentroTreinamentoModel :=
  store.centros.find? (fun c => c.nome == nome)

/-- `select(AtletaModel).filter_by(id=id)....first()`. -/
def findAtleta (store : Store) (id : String) : Option AtletaModel :=
  store.atletas.find? (fun a => a.id == id)

/-- The athlete row built in `post` from the freshly generated id, the
current timestamp, the payload and the two resolved foreign keys. -/
def buildModel (freshId : String) (now : Nat) (atleta_in : AtletaIn)
    (categoria_id centro_treinamento_id : Nat) : AtletaModel :=
  { id := freshId
    created_at := now
    nome := atleta_in.nome
    cpf := atleta_in.cpf
    sexo := atleta_in.sexo
    peso := atleta_in.peso
    altura := atleta_in.altura
    idade := atleta_in.idade
    categoria_id := categoria_id
    centro_treinamento_id := centro_treinamento_id }

/-- The `AtletaOut` projection built in `post`. -/
def buildOut (freshId : String) (now : Nat) (atleta_in : AtletaIn) : AtletaOut :=
  { id := freshId
    created_at := now
    nome := atleta_in.nome
    cpf := atleta_in.cpf
    sexo := atleta_in.sexo
    peso := atleta_in.peso
    altura := atleta_in.altura
    idade := atleta_in.idade
    categoria := atleta_in.categoria
    centro_treinamento := atleta_in.centro_treinamento }

/-- The storage-layer uniqueness constraint on `cpf`: committing an insert
whose cpf is already present raises `IntegrityError`. -/
def cpfTaken (store : Store) (cpf : String) : Bool :=
  store.atletas.any (fun a => a.cpf == cpf)

/-- `POST /` (`post` in the controller).  `freshId` stands for `uuid4()`,
`now` for `datetime.utcnow()`, and `genericFault` injects a persistence
failure other than a uniqueness violation at commit time.  Returns the
handler result and the session it leaves behind. -/
def post (store : Store) (freshId : String) (now : Nat) (genericFault : Bool)
    (atleta_in : AtletaIn) : Except HTTPError AtletaOut × Session :=
  match findCategoria store atleta_in.categoria with
  | none =>
      (.error ⟨400, "A categoria " ++ atleta_in.categoria ++ " não foi encontrada."⟩,
       ⟨store, []⟩)
  | some categoria =>
    match findCentro store atleta_in.centro_treinamento with
    | none =>
        (.error ⟨400, "O centro de treinamento " ++ atleta_in.centro_treinamento
            ++ " não foi encontrado."⟩,
         ⟨store, []⟩)
    | some centro =>
      let atleta_out := buildOut freshId now atleta_in
      let atleta_model :=
        buildModel freshId now atleta_in categoria.pk_id centro.pk_id
      -- db_session.add(atleta_model); await db_session.commit()
      if genericFault then
        -- `except Exception`: translated to a fixed 500, no rollback.
        (.error ⟨500, "Ocorreu um erro ao inserir os dados no banco"⟩,
         ⟨store, [atleta_model]⟩)
      else if cpfTaken store atleta_in.cpf then
        -- `except IntegrityError`: rollback, then the duplicate-cpf error.
        (.error ⟨303, "Já existe um atleta cadastrado com o cpf: " ++ atleta_in.cpf⟩,
         ⟨store, []⟩)
      else
        (.ok atleta_out,
         ⟨{ store with atletas := store.atletas ++ [atleta_model] }, []⟩)

/-- Python truthiness of an optional query string: `if nome:` is false for
an absent parameter and for the empty string. -/
def pyTruthy : Option String → Bool
  | none => false
  | some s => !(s == "")

/-- The filtered athlete query shared by `query` and `query_paginated`:
`select(AtletaModel)` with the `nome` filter applied when `nome` is
truthy, then the `cpf` filter when `cpf` is truthy. -/
def filteredQuery (store : Store) (nome cpf : Option String) : List AtletaModel :=
  let q := store.atletas
  let q := if pyTruthy nome then q.filter (fun a => a.nome == nome.getD "") else q
  let q := if pyTruthy cpf then q.filter (fun a => a.cpf == cpf.getD "") else q
  q

/-- `GET /` (`query` in the controller): the rows of the filtered query,
in storage order. -/
def query (store : Store) (nome cpf : Option String) : List AtletaModel :=
  filteredQuery store nome cpf

/-- A page of results with its metadata. -/
structure Page where
  items : List AtletaModel
  total : Nat
  page : Nat
  size : Nat
deriving Repr, DecidableEq

/-- Modelled from the spec: the external pagination helper
(`fastapi_pagination.paginate`) returns the offset/limit slice of the
query for 1-based page `page` of size `size`, together with the total
count of matching rows. -/
def paginate (rows : List AtletaModel) (page size : Nat) : Page :=
  { items := (rows.drop ((page - 1) * size)).take size
    total := rows.length
    page := page
    size := size }

/-- `GET /paginados` (`query_paginated` in the controller): the same
filtered query handed to the pagination helper. -/
def query_paginated (store : Store) (nome cpf : Option String)
    (page size : Nat) : Page :=
  paginate (filteredQuery store nome cpf) page size

/-- `GET /{id}` (`get` in the controller). -/
def get (store : Store) (id : String) : Except HTTPError AtletaModel :=
  match findAtleta store id with
  | none => .error ⟨404, "Atleta não encontrado no id: " ++ id⟩
  | some atleta => .ok atleta

/-- The `setattr` loop of `patch`: each field present in the sparse
payload overwrites the stored value, each absent field is left as is. -/
def applyUpdate (a : AtletaModel) (u : AtletaUpdate) : AtletaModel :=
  { a with
    nome := u.nome.getD a.nome
    cpf := u.cpf.getD a.cpf
    sexo := u.sexo.getD a.sexo
    peso := u.peso.getD a.peso
    altura := u.altura.getD a.altura
    idade := u.idade.getD a.idade }

/-- Replace the first element satisfying `p` by its image under `f`
(committing an in-place mutation of the row `first()` returned). -/
def updateFirst (p : AtletaModel → Bool) (f : AtletaModel → AtletaModel) :
    List AtletaModel → List AtletaModel
  | [] => []
  | a :: rest => if p a then f a :: rest else a :: updateFirst p f rest

/-- Remove the first element satisfying `p` (`db_session.delete` of the
row `first()` returned). -/
def removeFirst (p : AtletaModel → Bool) : List AtletaModel → List AtletaModel
  | [] => []
  | a :: rest => if p a then rest else a :: removeFirst p rest

/-- `PATCH /{id}` (`patch` in the controller): fetch by id, apply the set
fields, commit, return the refreshed row. -/
def patch (store : Store) (id : String) (atleta_up : AtletaUpdate) :
    Except HTTPError AtletaModel × Store :=
  match findAtleta store id with
  | none => (.error ⟨404, "Atleta não encontrado no id: " ++ id⟩, store)
  | some atleta =>
      let updated := applyUpdate atleta atleta_up
      (.ok updated,
       { store with
         atletas := updateFirst (fun a => a.id == id) (fun _ => updated) store.atletas })

/-- `DELETE /{id}` (`delete` in the controller): fetch by id, delete the
row, commit; no body on success. -/
def delete (store : Store) (id : String) :
    Except HTTPError Unit × Store :=
  match findAtleta store id with
  | none => (.error ⟨404, "Atleta não encontrado no id: " ++ id⟩, store)
  | some _ =>
      (.ok (),
       { store with atletas := removeFirst (fun a => a.id == id) store.atletas })

/-! ### Concrete fixtures used by the witnesses -/

/-- A sample category row. -/
def catElite : CategoriaModel := ⟨1, "Elite"⟩

/-- A sample training-center row. -/
def ctKing : CentroTreinamentoModel := ⟨7, "CT King"⟩

/-- A sample stored athlete. -/
def atleta1 : AtletaModel := ⟨"id1", 10, "Jane", "111", "F", 60, 170, 25, 1, 7⟩

/-- A second sample stored athlete. -/
def atleta2 : AtletaModel := ⟨"id2", 11, "John", "222", "M", 80, 180, 30, 1, 7⟩

/-- A sample store with one category, one training center and two
athletes. -/
def sampleStore : Store := ⟨[catElite], [ctKing], [atleta1, atleta2]⟩

/-- A sample create payload referencing the existing category and
training center, with a cpf not yet stored. -/
def sampleIn : AtletaIn := ⟨"Ana", "333", "F", 55, 160, 20, "Elite", "CT King"⟩

/-! ### Claims -/

/-- C1: a create request whose CPF equals the CPF of an already-stored
athlete fails at commit time with the duplicate-key error the code uses
for this conflict (status 303 SEE_OTHER, the "conflict, see other" status
of the spec) whose detail names the offending CPF; the session's pending
insert is rolled back before the error is raised, so the store is left
unchanged, without any partial row. -/
theorem c1_duplicate_cpf (store : Store) (freshId : String) (now : Nat)
    (atleta_in : AtletaIn)
    (hcat : (findCategoria store atleta_in.categoria).isSome)
    (hct : (findCentro store atleta_in.centro_treinamento).isSome)
    (hdup : cpfTaken store atleta_in.cpf = true) :
    post store freshId now false atleta_in =
      (.error ⟨303, "Já existe um atleta cadastrado com o cpf: " ++ atleta_in.cpf⟩,
       ⟨store, []⟩) := by
  obtain ⟨c, hc⟩ := Option.isSome_iff_exists.mp hcat
  obtain ⟨t, ht⟩ := Option.isSome_iff_exists.mp hct
  simp [post, hc, ht, hdup]

/-- Witness for C1: creating a second athlete with Jane's cpf "111" in
the sample store is rejected with the duplicate-cpf error and leaves the
store untouched and the session empty. -/
theorem c1_duplicate_cpf_witness :
    post sampleStore "id3" 99 false { sampleIn with cpf := "111" } =
      (.error ⟨303, "Já existe um atleta cadastrado com o cpf: 111"⟩,
       ⟨sampleStore, []⟩) :=
  c1_duplicate_cpf sampleStore "id3" 99 { sampleIn with cpf := "111" }
    (by decide) (by decide) (by decide)

/-- C2 counterexample: the claim says the open transaction is rolled back
before the translated error is raised on a non-uniqueness persistence
failure, but in the generic `except Exception` branch the handler raises
the 500 without any rollback: at this concrete input the session still
holds the pending insert when the error is raised. -/
theorem c2_no_rollback_counterexample :
    (post sampleStore "id3" 99 true sampleIn).2.pending ≠ [] ∧
    (post sampleStore "id3" 99 true sampleIn).1 =
      .error ⟨500, "Ocorreu um erro ao inserir os dados no banco"⟩ :=
  ⟨by decide, rfl⟩

/-- C2 (amended): on a persistence failure other than a uniqueness
violation the create request is answered with a generic 500 server error
whose detail is the fixed non-leaking message, and the committed store is
unchanged; however no rollback is performed in this branch — the added
row is still pending on the session when the error is raised (only the
uniqueness-violation branch rolls back). -/
theorem c2_generic_fault (store : Store) (freshId : String) (now : Nat)
    (atleta_in : AtletaIn) (categoria : CategoriaModel)
    (centro : CentroTreinamentoModel)
    (hcat : findCategoria store atleta_in.categoria = some categoria)
    (hct : findCentro store atleta_in.centro_treinamento = some centro) :
    post store freshId now true atleta_in =
      (.error ⟨500, "Ocorreu um erro ao inserir os dados no banco"⟩,
       ⟨store, [buildModel freshId now atleta_in categoria.pk_id centro.pk_id]⟩) := by
  simp [post, hcat, hct]

/-- Witness for C2 (amended): a generic persistence fault on the sample
create leaves the row pending on the session and answers the fixed 500. -/
theorem c2_generic_fault_witness :
    post sampleStore "id3" 99 true sampleIn =
      (.error ⟨500, "Ocorreu um erro ao inserir os dados no banco"⟩,
       ⟨sampleStore, [buildModel "id3" 99 sampleIn catElite.pk_id ctKing.pk_id]⟩) :=
  c2_generic_fault sampleStore "id3" 99 sampleIn catElite ctKing rfl rfl

/-- C3: a create request naming a category absent from the store fails
with a 400 client error naming the missing category and inserts nothing —
and this happens regardless of the training-center lookup, which comes
second; a request whose category exists but whose training center is
absent fails with a 400 naming the missing training center, again
inserting nothing. -/
theorem c3_missing_reference (store : Store) (freshId : String) (now : Nat)
    (genericFault : Bool) (atleta_in : AtletaIn) :
    (findCategoria store atleta_in.categoria = none →
      post store freshId now genericFault atleta_in =
        (.error ⟨400, "A categoria " ++ atleta_in.categoria ++ " não foi encontrada."⟩,
         ⟨store, []⟩)) ∧
    (∀ categoria : CategoriaModel,
      findCategoria store atleta_in.categoria = some categoria →
      findCentro store atleta_in.centro_treinamento = none →
      post store freshId now genericFault atleta_in =
        (.error ⟨400, "O centro de treinamento " ++ atleta_in.centro_treinamento
            ++ " não foi encontrado."⟩,
         ⟨store, []⟩)) := by
  constructor
  · intro h
    simp [post, h]
  · intro categoria hcat hct
    simp [post, hcat, hct]

/-- Witness for C3: in the sample store, creating with category "Master"
(absent) yields the 400 naming "Master" even though the training center
would also be checked later, and creating with the existing category but
training center "CT Ghost" (absent) yields the 400 naming "CT Ghost";
neither changes the store. -/
theorem c3_missing_reference_witness :
    post sampleStore "id3" 99 false { sampleIn with categoria := "Master" } =
      (.error ⟨400, "A categoria Master não foi encontrada."⟩, ⟨sampleStore, []⟩) ∧
    post sampleStore "id3" 99 false { sampleIn with centro_treinamento := "CT Ghost" } =
      (.error ⟨400, "O centro de treinamento CT Ghost não foi encontrado."⟩,
       ⟨sampleStore, []⟩) :=
  ⟨(c3_missing_reference sampleStore "id3" 99 false
      { sampleIn with categoria := "Master" }).1 (by decide),
   (c3_missing_reference sampleStore "id3" 99 false
      { sampleIn with centro_treinamento := "CT Ghost" }).2 catElite
      (by decide) (by decide)⟩

/-- C4: when an id resolves to no stored athlete, get-by-id,
partial-update and delete each fail with a 404 error whose detail names
the requested id, and the update and delete leave the store unchanged. -/
theorem c4_not_found (store : Store) (id : String)
    (h : findAtleta store id = none) :
    get store id = .error ⟨404, "Atleta não encontrado no id: " ++ id⟩ ∧
    (∀ atleta_up : AtletaUpdate,
      patch store id atleta_up =
        (.error ⟨404, "Atleta não encontrado no id: " ++ id⟩, store)) ∧
    delete store id =
      (.error ⟨404, "Atleta não encontrado no id: " ++ id⟩, store) := by
  refine ⟨?_, fun atleta_up => ?_, ?_⟩ <;> simp [get, patch, delete, h]

/-- Witness for C4: the id "ghost" resolves to no athlete of the sample
store, and all three operations answer the 404 naming it, leaving the
store unchanged. -/
theorem c4_not_found_witness :
    get sampleStore "ghost" =
      .error ⟨404, "Atleta não encontrado no id: ghost"⟩ ∧
    patch sampleStore "ghost" AtletaUpdate.empty =
      (.error ⟨404, "Atleta não encontrado no id: ghost"⟩, sampleStore) ∧
    delete sampleStore "ghost" =
      (.error ⟨404, "Atleta não encontrado no id: ghost"⟩, sampleStore) :=
  ⟨(c4_not_found sampleStore "ghost" (by decide)).1,
   (c4_not_found sampleStore "ghost" (by decide)).2.1 AtletaUpdate.empty,
   (c4_not_found sampleStore "ghost" (by decide)).2.2⟩

/-- Elements surviving `removeFirst` were in the original list. -/
theorem mem_of_mem_removeFirst (p : AtletaModel → Bool) (l : List AtletaModel)
    (b : AtletaModel) (hb : b ∈ removeFirst p l) : b ∈ l := by
  induction l with
  | nil => simp [removeFirst] at hb
  | cons a rest ih =>
    by_cases hpa : p a
    · simp only [removeFirst, hpa, if_pos] at hb
      exact List.mem_cons_of_mem a hb
    · simp only [removeFirst, hpa, if_neg, Bool.false_eq_true,
        not_false_iff, List.mem_cons] at hb
      rcases hb with hb | hb
      · exact hb ▸ List.mem_cons_self a rest
      · exact List.mem_cons_of_mem a (ih hb)

/-- An element of the list not satisfying `p` survives `removeFirst`. -/
theorem mem_removeFirst_of_mem (p : AtletaModel → Bool) (l : List AtletaModel)
    (b : AtletaModel) (hb : b ∈ l) (hpb : p b = false) :
    b ∈ removeFirst p l := by
  induction l with
  | nil => simp at hb
  | cons a rest ih =>
    by_cases hpa : p a
    · simp only [removeFirst, hpa, if_pos]
      rcases List.mem_cons.mp hb with hba | hba
      · rw [hba] at hpb
        rw [hpa] at hpb
        cases hpb
      · exact hba
    · simp only [removeFirst, hpa, if_neg, Bool.false_eq_true, not_false_iff,
        List.mem_cons]
      rcases List.mem_cons.mp hb with hba | hba
      · exact Or.inl hba
      · exact Or.inr (ih hba)

/-- After removing the first row with the given id from a table whose ids
are pairwise distinct, no row with that id remains. -/
theorem find_removeFirst_id_eq_none (l : List AtletaModel) (id : String)
    (hnodup : (l.map (fun x => x.id)).Nodup) :
    (removeFirst (fun x => x.id == id) l).find? (fun x => x.id == id) = none := by
  induction l with
  | nil => rfl
  | cons a rest ih =>
    rw [List.map_cons, List.nodup_cons] at hnodup
    by_cases hpa : (a.id == id) = true
    · simp only [removeFirst, hpa, if_pos]
      rw [List.find?_eq_none]
      intro x hx
      have hxid : x.id ∈ rest.map (fun y => y.id) := List.mem_map_of_mem _ hx
      intro hxeq
      have hx1 : x.id = id := by simpa using hxeq
      have ha1 : a.id = id := by simpa using hpa
      exact hnodup.1 (by rw [ha1, ← hx1]; exact hxid)
    · have hpa2 : (a.id == id) = false := by
        simpa using hpa
      simp only [removeFirst, hpa2, Bool.false_eq_true, if_neg, not_false_iff,
        List.find?_cons, hpa2]
      exact ih hnodup.2

/-- When the first element satisfying `p` is `a`, replacing it by `a`
itself leaves the list unchanged. -/
theorem updateFirst_self (p : AtletaModel → Bool) (l : List AtletaModel)
    (a : AtletaModel) (h : l.find? p = some a) :
    updateFirst p (fun _ => a) l = l := by
  induction l with
  | nil => cases h
  | cons b rest ih =>
    by_cases hpb : p b
    · rw [List.find?_cons_of_pos _ hpb] at h
      have hba : a = b := by injection h with h2; exact h2.symm
      simp [updateFirst, hpb, hba]
    · rw [List.find?_cons_of_neg _ hpb] at h
      simp [updateFirst, hpb, ih h]

/-- C5: a partial update on an existing athlete applies exactly the
fields present in the body: the stored row and the returned projection
are the old row with each present field overwritten and each absent field
kept; the id, timestamp, category and training-center references are
never touched, and updating only `peso` changes the weight alone. -/
theorem c5_partial_update (store : Store) (id : String) (a : AtletaModel)
    (h : findAtleta store id = some a) :
    (∀ u : AtletaUpdate,
      patch store id u =
        (.ok (applyUpdate a u),
         { store with
           atletas := updateFirst (fun x => x.id == id)
             (fun _ => applyUpdate a u) store.atletas })) ∧
    (∀ u : AtletaUpdate,
      (u.nome = none → (applyUpdate a u).nome = a.nome) ∧
      (u.cpf = none → (applyUpdate a u).cpf = a.cpf) ∧
      (u.sexo = none → (applyUpdate a u).sexo = a.sexo) ∧
      (u.peso = none → (applyUpdate a u).peso = a.peso) ∧
      (u.altura = none → (applyUpdate a u).altura = a.altura) ∧
      (u.idade = none → (applyUpdate a u).idade = a.idade) ∧
      (∀ v, u.nome = some v → (applyUpdate a u).nome = v) ∧
      (∀ v, u.cpf = some v → (applyUpdate a u).cpf = v) ∧
      (∀ v, u.sexo = some v → (applyUpdate a u).sexo = v) ∧
      (∀ v, u.peso = some v → (applyUpdate a u).peso = v) ∧
      (∀ v, u.altura = some v → (applyUpdate a u).altura = v) ∧
      (∀ v, u.idade = some v → (applyUpdate a u).idade = v) ∧
      (applyUpdate a u).id = a.id ∧
      (applyUpdate a u).created_at = a.created_at ∧
      (applyUpdate a u).categoria_id = a.categoria_id ∧
      (applyUpdate a u).centro_treinamento_id = a.centro_treinamento_id) ∧
    (∀ p : Int,
      applyUpdate a { AtletaUpdate.empty with peso := some p } =
        { a with peso := p }) ∧
    patch_status_code = 200 := by
  refine ⟨fun u => ?_, fun u => ?_, fun p => rfl, rfl⟩
  · simp [patch, h]
  · refine ⟨?_, ?_, ?_, ?_, ?_, ?_, ?_, ?_, ?_, ?_, ?_, ?_, rfl, rfl, rfl, rfl⟩ <;>
      first
        | (intro hu; simp [applyUpdate, hu])
        | (intro v hu; simp [applyUpdate, hu])

/-- Witness for C5: updating only Jane's weight to 70 returns her row
with the new weight and stores it, leaving name, cpf, category and
training center as they were, and leaving John's row untouched. -/
theorem c5_partial_update_witness :
    patch sampleStore "id1" { AtletaUpdate.empty with peso := some 70 } =
      (.ok { atleta1 with peso := 70 },
       { sampleStore with atletas := [{ atleta1 with peso := 70 }, atleta2] }) :=
  (c5_partial_update sampleStore "id1" atleta1 (by decide)).1
    { AtletaUpdate.empty with peso := some 70 }

/-- C6: the unpaginated list returns exactly the athletes matching the
provided non-empty exact-match filters, ANDed when both are present, and
returns the full table when no filter is provided. -/
theorem c6_list_filters (store : Store) (nome cpf : String)
    (hn : nome ≠ "") (hc : cpf ≠ "") :
    (∀ a : AtletaModel,
      a ∈ query store (some nome) (some cpf) ↔
        a ∈ store.atletas ∧ a.nome = nome ∧ a.cpf = cpf) ∧
    (∀ a : AtletaModel,
      a ∈ query store (some nome) none ↔ a ∈ store.atletas ∧ a.nome = nome) ∧
    (∀ a : AtletaModel,
      a ∈ query store none (some cpf) ↔ a ∈ store.atletas ∧ a.cpf = cpf) ∧
    query store none none = store.atletas := by
  refine ⟨fun a => ?_, fun a => ?_, fun a => ?_, rfl⟩ <;>
    · simp [query, filteredQuery, pyTruthy, hn, hc, List.mem_filter, and_assoc]
      try tauto

/-- Witness for C6: in the sample store, listing with nome "Jane" is
characterized by the name filter alone for Jane's row, and the unfiltered
list is the full table. -/
theorem c6_list_filters_witness :
    (atleta1 ∈ query sampleStore (some "Jane") none ↔
      atleta1 ∈ sampleStore.atletas ∧ atleta1.nome = "Jane") ∧
    query sampleStore none none = sampleStore.atletas :=
  ⟨(c6_list_filters sampleStore "Jane" "111" (by decide) (by decide)).2.1 atleta1,
   (c6_list_filters sampleStore "Jane" "111" (by decide) (by decide)).2.2.2⟩

/-- C7: a create request whose category and training center both exist,
whose cpf is not already stored and which meets no persistence fault
succeeds with status 201, returning the projection carrying the freshly
generated id (distinct, by freshness of the generator, from every
previously assigned id) and the server-side timestamp, and persists a row
with that same id and timestamp appended to the table. -/
theorem c7_create_success (store : Store) (freshId : String) (now : Nat)
    (atleta_in : AtletaIn) (categoria : CategoriaModel)
    (centro : CentroTreinamentoModel)
    (hcat : findCategoria store atleta_in.categoria = some categoria)
    (hct : findCentro store atleta_in.centro_treinamento = some centro)
    (hdup : cpfTaken store atleta_in.cpf = false)
    (hfresh : ∀ a ∈ store.atletas, a.id ≠ freshId) :
    post store freshId now false atleta_in =
      (.ok (buildOut freshId now atleta_in),
       ⟨{ store with
          atletas := store.atletas ++
            [buildModel freshId now atleta_in categoria.pk_id centro.pk_id] }, []⟩) ∧
    (buildOut freshId now atleta_in).id = freshId ∧
    (buildOut freshId now atleta_in).created_at = now ∧
    (buildModel freshId now atleta_in categoria.pk_id centro.pk_id).id = freshId ∧
    (buildModel freshId now atleta_in categoria.pk_id centro.pk_id).created_at
      = now ∧
    freshId ∉ store.atletas.map (fun a => a.id) ∧
    post_status_code = 201 := by
  refine ⟨?_, rfl, rfl, rfl, rfl, ?_, rfl⟩
  · simp [post, hcat, hct, hdup]
  · intro hmem
    obtain ⟨a, ha, hid⟩ := List.mem_map.mp hmem
    exact hfresh a ha hid

/-- Witness for C7: creating Ana with fresh id "id3" at time 99 in the
sample store succeeds and appends her row, with the returned id and
timestamp the persisted ones. -/
theorem c7_create_success_witness :
    post sampleStore "id3" 99 false sampleIn =
      (.ok (buildOut "id3" 99 sampleIn),
       ⟨{ sampleStore with
          atletas := sampleStore.atletas ++
            [buildModel "id3" 99 sampleIn catElite.pk_id ctKing.pk_id] }, []⟩) ∧
    (buildOut "id3" 99 sampleIn).id = "id3" ∧
    (buildOut "id3" 99 sampleIn).created_at = 99 :=
  ⟨(c7_create_success sampleStore "id3" 99 sampleIn catElite ctKing rfl rfl
      (by decide) (by decide)).1,
   (c7_create_success sampleStore "id3" 99 sampleIn catElite ctKing rfl rfl
      (by decide) (by decide)).2.1,
   (c7_create_success sampleStore "id3" 99 sampleIn catElite ctKing rfl rfl
      (by decide) (by decide)).2.2.1⟩

/-- C8: deleting an id that resolves to a stored athlete succeeds with
status 204 and no body, removes that athlete's row permanently, keeps
every other athlete, adds no row, and a subsequent get-by-id on the same
id answers the 404 naming it. -/
theorem c8_delete_existing (store : Store) (id : String) (a : AtletaModel)
    (h : findAtleta store id = some a)
    (hnodup : (store.atletas.map (fun x => x.id)).Nodup) :
    delete store id =
      (.ok (),
       { store with atletas := removeFirst (fun x => x.id == id) store.atletas }) ∧
    delete_status_code = 204 ∧
    (∀ b ∈ store.atletas, b.id ≠ id →
      b ∈ removeFirst (fun x => x.id == id) store.atletas) ∧
    (∀ b ∈ removeFirst (fun x => x.id == id) store.atletas, b ∈ store.atletas) ∧
    get { store with atletas := removeFirst (fun x => x.id == id) store.atletas }
        id =
      .error ⟨404, "Atleta não encontrado no id: " ++ id⟩ := by
  refine ⟨?_, rfl, ?_, ?_, ?_⟩
  · simp [delete, h]
  · intro b hb hbid
    exact mem_removeFirst_of_mem _ _ b hb (by simpa using hbid)
  · intro b hb
    exact mem_of_mem_removeFirst _ _ b hb
  · have hfind := find_removeFirst_id_eq_none store.atletas id hnodup
    simp [get, findAtleta, hfind]

/-- Witness for C8: deleting Jane ("id1") from the sample store leaves
exactly John's row, and getting "id1" afterwards answers the 404. -/
theorem c8_delete_existing_witness :
    delete sampleStore "id1" =
      (.ok (),
       { sampleStore with
         atletas := removeFirst (fun x => x.id == "id1") sampleStore.atletas }) ∧
    get { sampleStore with
          atletas := removeFirst (fun x => x.id == "id1") sampleStore.atletas }
        "id1" =
      .error ⟨404, "Atleta não encontrado no id: id1"⟩ :=
  ⟨(c8_delete_existing sampleStore "id1" atleta1 (by decide) (by decide)).1,
   (c8_delete_existing sampleStore "id1" atleta1 (by decide) (by decide)).2.2.2.2⟩

/-- C9: in both the unpaginated and the paginated list, a nome or cpf
query parameter supplied as the empty string behaves exactly like an
absent parameter: no filter is applied for that field. -/
theorem c9_empty_string_filter (store : Store) (nome cpf : Option String)
    (page size : Nat) :
    query store (some "") cpf = query store none cpf ∧
    query store nome (some "") = query store nome none ∧
    query_paginated store (some "") cpf page size =
      query_paginated store none cpf page size ∧
    query_paginated store nome (some "") page size =
      query_paginated store nome none page size := by
  refine ⟨?_, ?_, ?_, ?_⟩ <;> rfl

/-- C10: a partial update on an existing athlete whose body sets no
fields at all is an identity: the store is unchanged and the athlete's
unchanged row is returned with success status 200. -/
theorem c10_empty_update (store : Store) (id : String) (a : AtletaModel)
    (h : findAtleta store id = some a) :
    patch store id AtletaUpdate.empty = (.ok a, store) ∧
    patch_status_code = 200 := by
  refine ⟨?_, rfl⟩
  have hid : applyUpdate a AtletaUpdate.empty = a := rfl
  simp only [patch, h, hid]
  rw [updateFirst_self _ _ a h]

/-- Witness for C10: patching Jane with the empty body returns her
unchanged row and leaves the sample store as it was. -/
theorem c10_empty_update_witness :
    patch sampleStore "id1" AtletaUpdate.empty = (.ok atleta1, sampleStore) :=
  (c10_empty_update sampleStore "id1" atleta1 (by decide)).1

end WorkoutApi
